import Mathlib

/-!
Verification development for the team-health-monitor repository.

The repository fetches pull requests, reviews and commits from the GitHub
REST API through a rate-limited, cached client (src/github-client.js,
src/rate-limiter.js, the cache manager) and reduces them to delivery-speed
metrics compared across two time periods (src/metrics-analyzer.js).

This file gives a shallow embedding of the data model and of the operations
the claims are about, translated from the JavaScript sources:
  - JavaScript numbers are modelled as Int (timestamps in milliseconds,
    counters) or as Rat where genuinely fractional values arise (the
    exponential backoff delay, averages, percentages).  Every concrete value
    the repository manipulates in these code paths is exactly representable
    in double precision floating point, so Int and Rat arithmetic agree with
    the JavaScript semantics on the modelled runs.
  - Mutable objects become explicit state records threaded through the
    functions; the wall clock (Date.now) becomes an explicit argument.
  - Fallible or absent values become Option; JavaScript null results keep
    their null sentinel where the source collapses null data with a cache
    miss.
-/

namespace TeamHealth

/-! ## JSON values and JSON.stringify

The cache key of the cache manager is computed as
  crypto.createHash(md5).update(JSON.stringify(data)).digest(hex)
so we embed a JSON value type, the exact serialization JSON.stringify
performs on it (object fields kept in insertion order), and the md5 digest.
Numbers are restricted to integers: every number the repository ever puts
into a cache-key object is an integer (PR numbers), for which the
JavaScript number-to-string conversion is plain decimal notation. -/

inductive Json where
  | null
  | bool (b : Bool)
  | num (n : Int)
  | str (s : String)
  | arr (elems : List Json)
  | obj (fields : List (String × Json))

/-- Hex digit character for a value below 16 (lowercase, as produced by
Buffer.toString(hex) and by JSON \u escapes). -/
def hexDigit (n : ℕ) : Char := Char.ofNat (if n < 10 then 48 + n else 87 + n)

/-- Escape of a single character inside a JSON string literal, as performed
by JSON.stringify: quote and backslash are escaped, the common control
characters get two-character escapes, remaining control characters get
\u00xx, and everything else is kept literally. -/
def jsEscapeChar (c : Char) : List Char :=
  if c = Char.ofNat 34 then [Char.ofNat 92, Char.ofNat 34]
  else if c = Char.ofNat 92 then [Char.ofNat 92, Char.ofNat 92]
  else if c = Char.ofNat 8 then [Char.ofNat 92, Char.ofNat 98]
  else if c = Char.ofNat 12 then [Char.ofNat 92, Char.ofNat 102]
  else if c = Char.ofNat 10 then [Char.ofNat 92, Char.ofNat 110]
  else if c = Char.ofNat 13 then [Char.ofNat 92, Char.ofNat 114]
  else if c = Char.ofNat 9 then [Char.ofNat 92, Char.ofNat 116]
  else if c.toNat < 32 then
    [Char.ofNat 92, Char.ofNat 117, Char.ofNat 48, Char.ofNat 48,
     hexDigit (c.toNat / 16), hexDigit (c.toNat % 16)]
  else [c]

/-- Quoted JSON string literal for a string value or an object key. -/
def jsQuote (s : String) : String :=
  String.mk ([Char.ofNat 34] ++ (s.data.map jsEscapeChar).flatten ++ [Char.ofNat 34])

mutual

/-- JSON.stringify on the embedded JSON values.  Object fields are emitted
in their stored order, exactly as JavaScript serializes the (string-keyed)
objects the repository builds: property insertion order, with no
canonicalization of key ordering. -/
def Json.stringify : Json → String
  | .null => "null"
  | .bool true => "true"
  | .bool false => "false"
  | .num n => toString n
  | .str s => jsQuote s
  | .arr elems =>
      String.singleton (Char.ofNat 91) ++ Json.stringifyElems elems ++
        String.singleton (Char.ofNat 93)
  | .obj fields =>
      String.singleton (Char.ofNat 123) ++ Json.stringifyFields fields ++
        String.singleton (Char.ofNat 125)

/-- Comma-separated serialization of array elements. -/
def Json.stringifyElems : List Json → String
  | [] => ""
  | [j] => Json.stringify j
  | j :: j2 :: rest => Json.stringify j ++ "," ++ Json.stringifyElems (j2 :: rest)

/-- Comma-separated serialization of object fields, in stored order. -/
def Json.stringifyFields : List (String × Json) → String
  | [] => ""
  | [(k, v)] => jsQuote k ++ ":" ++ Json.stringify v
  | (k, v) :: f2 :: rest =>
      jsQuote k ++ ":" ++ Json.stringify v ++ "," ++ Json.stringifyFields (f2 :: rest)

end

/-! ## MD5

crypto.createHash(md5) over the UTF-8 bytes of the serialized string,
hex-encoded.  This is the full MD5 algorithm (RFC 1321): padding, 16-word
little-endian blocks, 64 rounds per block, little-endian hex output. -/

/-- Round constants K, the standard MD5 sine-derived table. -/
def md5K : List ℕ := [
  0xd76aa478, 0xe8c7b756, 0x242070db, 0xc1bdceee,
  0xf57c0faf, 0x4787c62a, 0xa8304613, 0xfd469501,
  0x698098d8, 0x8b44f7af, 0xffff5bb1, 0x895cd7be,
  0x6b901122, 0xfd987193, 0xa679438e, 0x49b40821,
  0xf61e2562, 0xc040b340, 0x265e5a51, 0xe9b6c7aa,
  0xd62f105d, 0x02441453, 0xd8a1e681, 0xe7d3fbc8,
  0x21e1cde6, 0xc33707d6, 0xf4d50d87, 0x455a14ed,
  0xa9e3e905, 0xfcefa3f8, 0x676f02d9, 0x8d2a4c8a,
  0xfffa3942, 0x8771f681, 0x6d9d6122, 0xfde5380c,
  0xa4beea44, 0x4bdecfa9, 0xf6bb4b60, 0xbebfbc70,
  0x289b7ec6, 0xeaa127fa, 0xd4ef3085, 0x04881d05,
  0xd9d4d039, 0xe6db99e5, 0x1fa27cf8, 0xc4ac5665,
  0xf4292244, 0x432aff97, 0xab9423a7, 0xfc93a039,
  0x655b59c3, 0x8f0ccc92, 0xffeff47d, 0x85845dd1,
  0x6fa87e4f, 0xfe2ce6e0, 0xa3014314, 0x4e0811a1,
  0xf7537e82, 0xbd3af235, 0x2ad7d2bb, 0xeb86d391]

/-- Per-round left-rotation amounts. -/
def md5S : List ℕ := [
  7, 12, 17, 22, 7, 12, 17, 22, 7, 12, 17, 22, 7, 12, 17, 22,
  5, 9, 14, 20, 5, 9, 14, 20, 5, 9, 14, 20, 5, 9, 14, 20,
  4, 11, 16, 23, 4, 11, 16, 23, 4, 11, 16, 23, 4, 11, 16, 23,
  6, 10, 15, 21, 6, 10, 15, 21, 6, 10, 15, 21, 6, 10, 15, 21]

def mask32 : ℕ := 4294967295

/-- Bitwise complement within 32 bits. -/
def not32 (x : ℕ) : ℕ := mask32 ^^^ x

/-- Left rotation of a 32-bit word. -/
def rotl32 (x n : ℕ) : ℕ := ((x <<< n) ||| (x >>> (32 - n))) &&& mask32

/-- Little-endian byte decomposition of a natural number, fixed width. -/
def toLEBytes (count x : ℕ) : List ℕ :=
  (List.range count).map (fun i => (x >>> (8 * i)) % 256)

/-- Little-endian byte recomposition. -/
def fromLEBytes (bs : List ℕ) : ℕ := bs.foldr (fun b acc => acc * 256 + b) 0

/-- MD5 padding: a 0x80 byte, zeros to 56 mod 64, then the bit length as a
little-endian 64-bit quantity. -/
def md5Pad (msg : List ℕ) : List ℕ :=
  let bitLen := msg.length * 8
  let afterOne := msg ++ [0x80]
  let zeros := (64 - (afterOne.length + 8) % 64) % 64
  afterOne ++ List.replicate zeros 0 ++ toLEBytes 8 bitLen

/-- The sixteen 32-bit little-endian message words of one 64-byte block. -/
def md5Words (block : List ℕ) : List ℕ :=
  (List.range 16).map (fun i => fromLEBytes ((block.drop (4 * i)).take 4))

/-- One of the 64 MD5 rounds on the (a, b, c, d) state. -/
def md5Step (M : List ℕ) (st : ℕ × ℕ × ℕ × ℕ) (i : ℕ) : ℕ × ℕ × ℕ × ℕ :=
  let a := st.1
  let b := st.2.1
  let c := st.2.2.1
  let d := st.2.2.2
  let f :=
    if i < 16 then (b &&& c) ||| (not32 b &&& d)
    else if i < 32 then (d &&& b) ||| (not32 d &&& c)
    else if i < 48 then b ^^^ c ^^^ d
    else c ^^^ (b ||| not32 d)
  let g :=
    if i < 16 then i
    else if i < 32 then (5 * i + 1) % 16
    else if i < 48 then (3 * i + 5) % 16
    else (7 * i) % 16
  let tmp := (f + a + md5K.getD i 0 + M.getD g 0) &&& mask32
  (d, (b + rotl32 tmp (md5S.getD i 0)) &&& mask32, b, c)

/-- Compression of one 64-byte block into the running state. -/
def md5Block (st : ℕ × ℕ × ℕ × ℕ) (block : List ℕ) : ℕ × ℕ × ℕ × ℕ :=
  let M := md5Words block
  let r := (List.range 64).foldl (md5Step M) st
  ((st.1 + r.1) &&& mask32, (st.2.1 + r.2.1) &&& mask32,
   (st.2.2.1 + r.2.2.1) &&& mask32, (st.2.2.2 + r.2.2.2) &&& mask32)

/-- Two lowercase hex characters of a byte. -/
def byteHex (b : ℕ) : List Char := [hexDigit (b / 16), hexDigit (b % 16)]

/-- The full MD5 hex digest of a byte sequence. -/
def md5Hex (msg : List ℕ) : String :=
  let padded := md5Pad msg
  let blocks := (List.range (padded.length / 64)).map
    (fun i => (padded.drop (64 * i)).take 64)
  let st := blocks.foldl md5Block (0x67452301, 0xefcdab89, 0x98badcfe, 0x10325476)
  String.mk (([st.1, st.2.1, st.2.2.1, st.2.2.2].map (toLEBytes 4)).flatten.map byteHex).flatten

/-- UTF-8 encoding of one character (hash.update receives the UTF-8 bytes of
the serialized string). -/
def utf8Bytes (c : Char) : List ℕ :=
  let n := c.toNat
  if n < 128 then [n]
  else if n < 2048 then [192 + n / 64, 128 + n % 64]
  else if n < 65536 then [224 + n / 4096, 128 + (n / 64) % 64, 128 + n % 64]
  else [240 + n / 262144, 128 + (n / 4096) % 64, 128 + (n / 64) % 64, 128 + n % 64]

/-- UTF-8 bytes of a string. -/
def strBytes (s : String) : List ℕ := (s.data.map utf8Bytes).flatten

/-! ## CacheManager key generation (cache-manager.js) -/

/-- CacheManager.generateKey: md5 hex digest of JSON.stringify(data). -/
def generateKey (data : Json) : String := md5Hex (strBytes (Json.stringify data))

/-- CacheManager.paginatedKey(type, owner, repo, params): generateKey of the
object literal with the fields type, owner, repo followed by the spread
params, in that property insertion order. -/
def paginatedKey (type owner repo : String) (params : List (String × Json)) : String :=
  generateKey (Json.obj
    ([(("type" : String), Json.str type),
      (("owner" : String), Json.str owner),
      (("repo" : String), Json.str repo)] ++ params))

/-- CacheManager.prDetailsKey(owner, repo, prNumber, prUpdatedAt). -/
def prDetailsKey (owner repo : String) (prNumber : Int) (prUpdatedAt : String) : String :=
  generateKey (Json.obj
    [(("type" : String), Json.str ("pr-details")),
     (("owner" : String), Json.str owner),
     (("repo" : String), Json.str repo),
     (("prNumber" : String), Json.num prNumber),
     (("prUpdatedAt" : String), Json.str prUpdatedAt)])

/-! ## CacheManager entries, get and set (cache-manager.js)

The cache directory is modelled as an association list from keys to entries,
one entry per key, mirroring one JSON file per key on disk.  Reading and
writing a file through JSON.stringify and JSON.parse is the identity on the
modelled JSON payload domain, so entries store the payload directly.
Date.now() is an explicit argument.  The error-swallowing catch branches of
the source (corrupt or unreadable files are treated as a miss, failed writes
as a no-op) have no counterpart because the modelled store cannot be
corrupt. -/

structure CacheEntry where
  timestamp : Int
  data : Json

structure CacheManager where
  maxAge : Int
  enabled : Bool
  store : List (String × CacheEntry)

/-- CacheManager.isExpired(timestamp): Date.now() - timestamp > this.maxAge. -/
def CacheManager.isExpired (cm : CacheManager) (now timestamp : Int) : Bool :=
  decide (cm.maxAge < now - timestamp)

/-- CacheManager.get(key): null when disabled or no entry; when the entry is
expired it is deleted (fs.unlinkSync) and null is returned; otherwise the
stored payload is returned.  As in the source, a stored null payload is
indistinguishable from a miss in the returned value. -/
def CacheManager.get (cm : CacheManager) (key : String) (now : Int) : Json × CacheManager :=
  if cm.enabled = false then (Json.null, cm)
  else
    match cm.store.lookup key with
    | none => (Json.null, cm)
    | some entry =>
      if cm.isExpired now entry.timestamp then
        (Json.null, { cm with store := cm.store.filter (fun p => p.1 != key) })
      else (entry.data, cm)

/-- CacheManager.set(key, data): no-op when disabled; otherwise persists
an entry carrying the current timestamp and the payload, overwriting any
prior entry for the same key. -/
def CacheManager.set (cm : CacheManager) (key : String) (data : Json) (now : Int) : CacheManager :=
  if cm.enabled = false then cm
  else { cm with
         store := (key, { timestamp := now, data := data }) :: cm.store.filter (fun p => p.1 != key) }

/-! ## RateLimiter (rate-limiter.js)

State record for the RateLimiter class.  Timestamps and delays are Rat
(milliseconds); the request windows are lists of timestamps in push order.
The write-only stats counters of the source (totalRequests, backoffEvents,
totalWaitTime, ...) are omitted: no control flow reads them.  this.now()
is an explicit argument and sleeping is the caller's concern, so
waitIfNeeded returns the duration it would sleep together with the updated
state. -/

structure RateLimiter where
  requestsPerHour : ℚ
  burstLimit : ℚ
  backoffMultiplier : ℚ
  maxBackoffMs : ℚ
  requests : List ℚ
  burstRequests : List ℚ
  currentBackoffMs : ℚ
  isRateLimited : Bool
  rateLimitResetTime : Option ℚ

/-- The constructor with the defaults the repository always uses for the
backoff options (GitHubClient only ever passes requestsPerHour and
burstLimit): multiplier 1.5, ceiling 60000 ms, floor 1000 ms. -/
def RateLimiter.init (requestsPerHour burstLimit : ℚ) : RateLimiter :=
  { requestsPerHour := requestsPerHour,
    burstLimit := burstLimit,
    backoffMultiplier := 3 / 2,
    maxBackoffMs := 60000,
    requests := [],
    burstRequests := [],
    currentBackoffMs := 1000,
    isRateLimited := false,
    rateLimitResetTime := none }

/-- cleanOldRequests: drop hourly-window timestamps at or before one hour
ago and burst-window timestamps at or before one minute ago (the source
keeps time > cutoff, strictly). -/
def RateLimiter.cleanOldRequests (st : RateLimiter) (now : ℚ) : RateLimiter :=
  { st with
    requests := st.requests.filter (fun t => decide (now - 3600000 < t)),
    burstRequests := st.burstRequests.filter (fun t => decide (now - 60000 < t)) }

/-- JavaScript truthiness of this.rateLimitResetTime: null and 0 are falsy. -/
def jsTruthy : Option ℚ → Bool
  | none => false
  | some r => !(r == 0)

/-- The budget-checking tail of getWaitTime, reached when the hard-limit
branch does not return: getRemainingRequests prunes the windows again, the
burst window is checked first, then the conservative hourly threshold.
When a window forces a wait the duration until its oldest member expires is
returned; an empty window in one of those branches (impossible while the
corresponding limit is positive, and the repository always configures
positive limits) corresponds to Math.min() of an empty spread in the
source. -/
def RateLimiter.getWaitTimeBudget (st : RateLimiter) (now : ℚ) : ℚ × RateLimiter :=
  let st2 := st.cleanOldRequests now
  let remainingHourly := max 0 (st2.requestsPerHour - st2.requests.length)
  let remainingBurst := max 0 (st2.burstLimit - st2.burstRequests.length)
  if remainingBurst ≤ 0 then
    match st2.burstRequests.min? with
    | some oldestBurstRequest => (max 0 (oldestBurstRequest + 60000 - now), st2)
    | none => (0, st2)
  else if remainingHourly ≤ 10 then
    match st2.requests.min? with
    | some oldestRequest =>
      let waitTime := max 0 (oldestRequest + 3600000 - now)
      if 0 < waitTime then (min waitTime st2.currentBackoffMs, st2) else (0, st2)
    | none => (0, st2)
  else (0, st2)

/-- getWaitTime: when explicitly rate limited with a (truthy) reset time in
the future, the remaining time until reset is returned; when the reset time
has passed the limited flag is cleared and the backoff is reset to the
floor before the budget checks run; otherwise the budget checks run
directly. -/
def RateLimiter.getWaitTime (st : RateLimiter) (now : ℚ) : ℚ × RateLimiter :=
  let st1 := st.cleanOldRequests now
  if st1.isRateLimited && jsTruthy st1.rateLimitResetTime then
    let resetTime := st1.rateLimitResetTime.getD 0
    let waitTime := max 0 (resetTime - now)
    if 0 < waitTime then (waitTime, st1)
    else
      RateLimiter.getWaitTimeBudget
        { st1 with isRateLimited := false, rateLimitResetTime := none, currentBackoffMs := 1000 }
        now
  else RateLimiter.getWaitTimeBudget st1 now

/-- waitIfNeeded: on a non-zero computed wait the caller sleeps that long
and the backoff escalates, multiplied by the configured multiplier and
capped at the ceiling; on a zero wait the backoff resets to the 1000 ms
floor. -/
def RateLimiter.waitIfNeeded (st : RateLimiter) (now : ℚ) : ℚ × RateLimiter :=
  let r := st.getWaitTime now
  if 0 < r.1 then
    (r.1, { r.2 with
            currentBackoffMs := min (r.2.currentBackoffMs * r.2.backoffMultiplier) r.2.maxBackoffMs })
  else (0, { r.2 with currentBackoffMs := 1000 })

/-- recordRequest: a cache hit only bumps a counter; a real request pushes
the current timestamp onto both sliding windows. -/
def RateLimiter.recordRequest (st : RateLimiter) (now : ℚ) (fromCache : Bool) : RateLimiter :=
  if fromCache then st
  else { st with requests := st.requests ++ [now], burstRequests := st.burstRequests ++ [now] }

/-- handleRateLimitResponse(reset): marks the limiter as hard limited until
reset (given in epoch seconds, stored in milliseconds). -/
def RateLimiter.handleRateLimitResponse (st : RateLimiter) (rateLimitReset : ℚ) : RateLimiter :=
  { st with isRateLimited := true, rateLimitResetTime := some (rateLimitReset * 1000) }

/-! ## GitHubClient.makeRequest error path (github-client.js)

The claims about makeRequest concern its control flow on failures: which
outcome of the wrapped octokit operation makes it return, throw, or retry.
We model one call of makeRequest (with no cache key, or a cold cache, so
the operation actually executes) against the stream of outcomes that
successive executions of requestFn produce.  The rate-limiter bookkeeping
in the catch branch (handleRateLimitResponse when the reset header is
present, then waitIfNeeded) never influences whether the recursive
makeRequest call is made, so the attempt-counting model below carries the
reset header along without consuming it. -/

/-- One execution of the wrapped operation: a successful response, a
rate-limit rejection (status 403 with a message mentioning the rate limit,
optionally carrying the x-ratelimit-reset header), or any other error. -/
inductive ApiOutcome where
  | ok (v : Json)
  | rateLimited (resetTime : Option Int)
  | otherError

/-- Result of one makeRequest call together with how many times the wrapped
operation was executed before the call returned or threw. -/
inductive RequestOutcome where
  | success (v : Json) (attempts : ℕ)
  | failed (attempts : ℕ)

/-- makeRequest against a stream of operation outcomes: a success returns
the data, a non-rate-limit error propagates, and a rate-limit error makes
the whole call recurse into itself — consuming the next outcome of the
stream — with no bound on the number of retries.  none means the stream
was exhausted while makeRequest was still retrying. -/
def makeRequest : List ApiOutcome → Option RequestOutcome
  | [] => none
  | outcome :: rest =>
    match outcome with
    | .ok v => some (.success v 1)
    | .otherError => some (.failed 1)
    | .rateLimited _ =>
      match makeRequest rest with
      | none => none
      | some (.success v n) => some (.success v (n + 1))
      | some (.failed n) => some (.failed (n + 1))

/-! ## GitHubClient pagination loops (github-client.js)

getPullRequests and getCommits run page loops around makeRequest.  The
remote endpoint is modelled as a function from the (1-based) page number to
the page of records it returns; the loops are given fuel (an upper bound on
the number of iterations — the source loop runs until a stop condition, and
every theorem below supplies enough fuel for the stop condition to be
reached).  Each loop returns the accumulated records plus the number of
page requests issued. -/

/-- A pull request as it matters for the list-page window filter. -/
structure RawPR where
  number : Int
  created_at : Int
deriving DecidableEq

/-- The client-side window test of getPullRequests:
createdAt >= since && createdAt <= until, on millisecond timestamps. -/
def prInWindow (since untl : Int) (pr : RawPR) : Bool :=
  decide (since ≤ pr.created_at) && decide (pr.created_at ≤ untl)

/-- The per-page filter data.filter(...) of getPullRequests. -/
def filterPulls (since untl : Int) (data : List RawPR) : List RawPR :=
  data.filter (prInWindow since untl)

/-- The page loop of getPullRequests: fetch page, filter it into the
accumulator, and continue (page + 1) iff the page was full (100 records)
and contributed at least one in-window record. -/
def getPullRequestsPages (pages : ℕ → List RawPR) (since untl : Int) :
    ℕ → ℕ → List RawPR × ℕ
  | 0, _ => ([], 0)
  | fuel + 1, page =>
    let data := pages page
    let filteredPulls := filterPulls since untl data
    if data.length = 100 ∧ 0 < filteredPulls.length then
      let rest := getPullRequestsPages pages since untl fuel (page + 1)
      (filteredPulls ++ rest.1, rest.2 + 1)
    else (filteredPulls, 1)

/-- A commit record; its contents are irrelevant to the loop. -/
structure Commit where
  sha : String
deriving DecidableEq

/-- The page loop of getCommits: every page is accumulated unfiltered
(the endpoint filters by since/until server-side) and the loop breaks on
the first page shorter than 100. -/
def getCommitsPages (pages : ℕ → List Commit) : ℕ → ℕ → List Commit × ℕ
  | 0, _ => ([], 0)
  | fuel + 1, page =>
    let data := pages page
    if data.length < 100 then (data, 1)
    else
      let rest := getCommitsPages pages fuel (page + 1)
      (data ++ rest.1, rest.2 + 1)

/-! ## MetricsAnalyzer (metrics-analyzer.js)

Pure functions over supplied records.  Hours are computed by date-fns
differenceInHours, whose default rounding truncates the millisecond
difference toward zero; ISO timestamp strings are modelled directly as
their millisecond values. -/

/-- date-fns differenceInHours(left, right): the millisecond difference
divided by 3600000, truncated toward zero (Math.trunc). -/
def differenceInHours (laterMs earlierMs : Int) : Int :=
  Int.tdiv (laterMs - earlierMs) 3600000

/-- A review as consumed by analyzePullRequest. -/
structure RawReview where
  state : String
  submitted_at : Int
deriving DecidableEq

/-- The fields of a pull request consumed by analyzePullRequest. -/
structure RawPRDetail where
  number : Int
  title : String
  author : String
  created_at : Int
  merged_at : Option Int
  additions : Int
  deletions : Int
  changed_files : Int
  labels : List String
deriving DecidableEq

/-- The prSize record built by analyzePullRequest. -/
structure PRSizeMetric where
  additions : Int
  deletions : Int
  changedFiles : Int
  totalChanges : Int
deriving DecidableEq

/-- The per-PR metric record returned by analyzePullRequest. -/
structure PRMetric where
  number : Int
  title : String
  author : String
  createdAt : Int
  mergedAt : Int
  cycleTimeHours : Int
  reviewTimeHours : Option Int
  prSize : PRSizeMetric
  labels : List String
deriving DecidableEq

/-- reviews.filter(review => review.state === APPROVED). -/
def approvedReviews (reviews : List RawReview) : List RawReview :=
  reviews.filter (fun r => r.state == "APPROVED")

/-- The sort by submitted_at ascending.  Array.prototype.sort with the
numeric comparator is stable (required since ES2019); insertion sort with
the non-strict key order is the same stable sort. -/
def sortBySubmitted (reviews : List RawReview) : List RawReview :=
  List.insertionSort (fun a b => a.submitted_at ≤ b.submitted_at) reviews

/-- analyzePullRequest(pr, reviews): null for an unmerged PR; otherwise
cycle time from creation to merge, review time from creation to the first
approved review in submitted_at order (null when none), and the size
metric additions + deletions. -/
def analyzePullRequest (pr : RawPRDetail) (reviews : List RawReview) : Option PRMetric :=
  match pr.merged_at with
  | none => none
  | some mergedAt =>
    let createdAt := pr.created_at
    let cycleTimeHours := differenceInHours mergedAt createdAt
    let firstApprovalReview := (sortBySubmitted (approvedReviews reviews)).head?
    let reviewTimeHours :=
      firstApprovalReview.map (fun r => differenceInHours r.submitted_at createdAt)
    some { number := pr.number,
           title := pr.title,
           author := pr.author,
           createdAt := createdAt,
           mergedAt := mergedAt,
           cycleTimeHours := cycleTimeHours,
           reviewTimeHours := reviewTimeHours,
           prSize := { additions := pr.additions,
                       deletions := pr.deletions,
                       changedFiles := pr.changed_files,
                       totalChanges := pr.additions + pr.deletions },
           labels := pr.labels }

/-- The earliest element of a list under a key, keeping the first one on
ties; this is the specification-side description of sorting stably by the
key and taking the head. -/
def firstMinBy {α : Type} (key : α → Int) : List α → Option α
  | [] => none
  | x :: xs =>
    match firstMinBy key xs with
    | none => some x
    | some b => if key b < key x then some b else some x

/-- this.average: sum / length, zero on an empty array. -/
def average (arr : List ℚ) : ℚ :=
  if 0 < arr.length then arr.foldl (· + ·) 0 / arr.length else 0

/-- The ascending numeric sort used by median and percentile. -/
def sortNums (arr : List ℚ) : List ℚ := List.insertionSort (fun a b => a ≤ b) arr

/-- this.median: middle element, or the mean of the two middle elements for
an even count; zero on an empty array. -/
def median (arr : List ℚ) : ℚ :=
  if arr.length = 0 then 0
  else
    let sorted := sortNums arr
    let middle := arr.length / 2
    if arr.length % 2 = 0 then (sorted.getD (middle - 1) 0 + sorted.getD middle 0) / 2
    else sorted.getD middle 0

/-- this.percentile(arr, p): index ceil(p/100 * n) - 1 clamped below by 0
into the ascending sort; zero on an empty array. -/
def percentile (arr : List ℚ) (p : ℚ) : ℚ :=
  if arr.length = 0 then 0
  else
    let sorted := sortNums arr
    let index : Int := Int.ceil (p / 100 * arr.length) - 1
    sorted.getD (max 0 index).toNat 0

/-- The mean/median/p95/count block of the summary. -/
structure StatBlock where
  avgHours : ℚ
  medianHours : ℚ
  p95Hours : ℚ
  count : ℕ
deriving DecidableEq

/-- The prSize block of the summary. -/
structure SizeBlock where
  avgChanges : ℚ
  medianChanges : ℚ
  p95Changes : ℚ
deriving DecidableEq

/-- One ranked contributor, as returned by getTopContributors (the raw
per-author hour lists are projected away by the source before returning). -/
structure Contributor where
  author : String
  totalPRs : ℕ
  avgCycleTime : ℚ
  avgReviewTime : ℚ
deriving DecidableEq

/-- The summary record of calculateMetricsSummary. -/
structure MetricsSummary where
  totalPRs : ℕ
  cycleTime : StatBlock
  reviewTime : StatBlock
  prSize : SizeBlock
  topContributors : List Contributor
deriving DecidableEq

/-- The distinct authors of the metrics in first-encounter order — the key
insertion order of the contributors object accumulated by
getTopContributors. -/
def collectAuthors (prMetrics : List PRMetric) : List String :=
  prMetrics.foldl (fun acc pr => if pr.author ∈ acc then acc else acc ++ [pr.author]) []

/-- getTopContributors: group by author in first-encounter order, rank by
PR count descending (stable, so encounter order breaks ties), truncate to
ten, and carry each author's mean cycle and review hours. -/
def getTopContributors (prMetrics : List PRMetric) : List Contributor :=
  let entries := (collectAuthors prMetrics).map (fun a =>
    let prs := prMetrics.filter (fun pr => pr.author == a)
    let cycleTimeHours := prs.map (fun pr => (pr.cycleTimeHours : ℚ))
    let reviewTimeHours := prs.filterMap (fun pr => pr.reviewTimeHours.map (fun h => (h : ℚ)))
    { author := a,
      totalPRs := prs.length,
      avgCycleTime := average cycleTimeHours,
      avgReviewTime := average reviewTimeHours })
  (List.insertionSort (fun a b : Contributor => b.totalPRs ≤ a.totalPRs) entries).take 10

/-- calculateMetricsSummary(prMetrics): null for an empty list; otherwise
mean, median, p95 and count per field.  The source's filter of null
cycleTimeHours values is vacuous — analyzePullRequest always sets an
integer on the records it returns — so the cycle list is a plain map;
reviewTimeHours keeps only non-null values, as in the source. -/
def calculateMetricsSummary (prMetrics : List PRMetric) : Option MetricsSummary :=
  if prMetrics.length = 0 then none
  else
    let cycleTimeHours := prMetrics.map (fun pr => (pr.cycleTimeHours : ℚ))
    let reviewTimeHours := prMetrics.filterMap
      (fun pr => pr.reviewTimeHours.map (fun h => (h : ℚ)))
    let prSizes := prMetrics.map (fun pr => (pr.prSize.totalChanges : ℚ))
    some { totalPRs := prMetrics.length,
           cycleTime := { avgHours := average cycleTimeHours,
                          medianHours := median cycleTimeHours,
                          p95Hours := percentile cycleTimeHours 95,
                          count := cycleTimeHours.length },
           reviewTime := { avgHours := average reviewTimeHours,
                           medianHours := median reviewTimeHours,
                           p95Hours := percentile reviewTimeHours 95,
                           count := reviewTimeHours.length },
           prSize := { avgChanges := average prSizes,
                       medianChanges := median prSizes,
                       p95Changes := percentile prSizes 95 },
           topContributors := getTopContributors prMetrics }

/-- JavaScript falsiness of the metric values handed to
calculateImprovement: undefined (absent) and 0 are falsy. -/
def falsyNum : Option ℚ → Bool
  | none => true
  | some x => x == 0

/-- The per-metric delta record of calculateImprovement. -/
structure ImprovementResult where
  oldValue : ℚ
  newValue : ℚ
  percentChange : ℚ
  improvement : ℚ
  isImprovement : Bool
deriving DecidableEq

/-- calculateImprovement(oldValue, newValue, lowerIsBetter): null when
either input is falsy; otherwise the percent change, the sign-normalized
improvement, and the improvement flag. -/
def calculateImprovement (oldValue newValue : Option ℚ) (lowerIsBetter : Bool) :
    Option ImprovementResult :=
  if falsyNum oldValue || falsyNum newValue then none
  else
    let o := oldValue.getD 0
    let n := newValue.getD 0
    let percentChange := (n - o) / o * 100
    let improvement := if lowerIsBetter then -percentChange else percentChange
    some { oldValue := o,
           newValue := n,
           percentChange := percentChange,
           improvement := improvement,
           isImprovement := decide (0 < improvement) }

/-- calculateOverallImprovement: the mean of the improvements of the
non-null metric deltas, zero when all four are null. -/
def calculateOverallImprovement
    (cycleTime reviewTime prSize totalPRs : Option ImprovementResult) : ℚ :=
  let improvements := List.filterMap (fun c => Option.map ImprovementResult.improvement c)
    [cycleTime, reviewTime, prSize, totalPRs]
  if improvements.length = 0 then 0 else average improvements

/-- The qualitative band of generateSummary's message suffix:
minimal below 5, moderate below 15, significant otherwise, by the absolute
value of the overall improvement. -/
inductive Impact where
  | minimal
  | moderate
  | significant
deriving DecidableEq

/-- generateSummary's banding of Math.abs(overallImprovement). -/
def impactOf (overallImprovement : ℚ) : Impact :=
  if |overallImprovement| < 5 then Impact.minimal
  else if |overallImprovement| < 15 then Impact.moderate
  else Impact.significant

/-- The comparison object assembled by comparePeriors, with the band in
place of the formatted summary string. -/
structure PeriodComparison where
  cycleTime : Option ImprovementResult
  reviewTime : Option ImprovementResult
  prSize : Option ImprovementResult
  totalPRs : Option ImprovementResult
  overallImprovement : ℚ
  band : Impact
deriving DecidableEq

/-- comparePeriors(currentPeriod, previousPeriod): per-metric deltas (old
value from the previous period, new value from the current period; lower is
better for cycle time, review time and PR size, higher is better for the
PR count), plus their overall mean and its band.  The optional-chaining
reads on possibly-null summaries become Option.map. -/
def comparePeriors (currentPeriod previousPeriod : Option MetricsSummary) :
    PeriodComparison :=
  let cycleTime := calculateImprovement
    (previousPeriod.map (fun s => s.cycleTime.avgHours))
    (currentPeriod.map (fun s => s.cycleTime.avgHours)) true
  let reviewTime := calculateImprovement
    (previousPeriod.map (fun s => s.reviewTime.avgHours))
    (currentPeriod.map (fun s => s.reviewTime.avgHours)) true
  let prSize := calculateImprovement
    (previousPeriod.map (fun s => s.prSize.avgChanges))
    (currentPeriod.map (fun s => s.prSize.avgChanges)) true
  let totalPRs := calculateImprovement
    (previousPeriod.map (fun s => (s.totalPRs : ℚ)))
    (currentPeriod.map (fun s => (s.totalPRs : ℚ))) false
  let overallImprovement := calculateOverallImprovement cycleTime reviewTime prSize totalPRs
  { cycleTime := cycleTime,
    reviewTime := reviewTime,
    prSize := prSize,
    totalPRs := totalPRs,
    overallImprovement := overallImprovement,
    band := impactOf overallImprovement }

/-! ## Concrete fixtures used by the witnesses and counterexamples -/

/-- A merged PR created at T0, merged at T0 + 5h, with 10 + 5 changes. -/
def examplePR1 : RawPRDetail :=
  { number := 1, title := "one", author := "alice", created_at := 0,
    merged_at := some 18000000, additions := 10, deletions := 5,
    changed_files := 2, labels := [] }

/-- One approved review of examplePR1 at T0 + 2h. -/
def exampleReviews1 : List RawReview :=
  [{ state := "APPROVED", submitted_at := 7200000 }]

/-- A merged PR created at T0, merged at T0 + 15h, with 30 + 10 changes. -/
def examplePR2 : RawPRDetail :=
  { number := 2, title := "two", author := "bob", created_at := 0,
    merged_at := some 54000000, additions := 30, deletions := 10,
    changed_files := 4, labels := [] }

/-- examplePR2 has no reviews. -/
def exampleReviews2 : List RawReview := []

/-- An unmerged PR. -/
def examplePR3 : RawPRDetail :=
  { number := 3, title := "three", author := "alice", created_at := 0,
    merged_at := none, additions := 1, deletions := 1,
    changed_files := 1, labels := [] }

/-- The metric analyzePullRequest computes for examplePR1. -/
def exampleMetric1 : PRMetric :=
  { number := 1, title := "one", author := "alice", createdAt := 0,
    mergedAt := 18000000, cycleTimeHours := 5, reviewTimeHours := some 2,
    prSize := { additions := 10, deletions := 5, changedFiles := 2, totalChanges := 15 },
    labels := [] }

/-- The metric analyzePullRequest computes for examplePR2. -/
def exampleMetric2 : PRMetric :=
  { number := 2, title := "two", author := "bob", createdAt := 0,
    mergedAt := 54000000, cycleTimeHours := 15, reviewTimeHours := none,
    prSize := { additions := 30, deletions := 10, changedFiles := 4, totalChanges := 40 },
    labels := [] }

/-- A three-page PR source: two full pages of in-window records, then a
short page. -/
def examplePRPages : ℕ → List RawPR := fun n =>
  if n = 1 then List.replicate 100 { number := 1, created_at := 50 }
  else if n = 2 then List.replicate 100 { number := 2, created_at := 60 }
  else if n = 3 then [{ number := 3, created_at := 70 }]
  else []

/-- A three-page commit source: two full pages, then a short page. -/
def exampleCommitPages : ℕ → List Commit := fun n =>
  if n = 1 then List.replicate 100 { sha := "a" }
  else if n = 2 then List.replicate 100 { sha := "b" }
  else if n = 3 then [{ sha := "c" }]
  else []

/-- A limiter state that is hard limited with a reset time already passed
(at now = 10), a built-up backoff of 2250 ms, and a full burst window: the
crossing waitIfNeeded call drops the backoff instead of escalating it. -/
def backoffDropState : RateLimiter :=
  { requestsPerHour := 4500, burstLimit := 2, backoffMultiplier := 3 / 2,
    maxBackoffMs := 60000, requests := [5, 6], burstRequests := [5, 6],
    currentBackoffMs := 2250, isRateLimited := true, rateLimitResetTime := some 5 }

/-- A limiter state that is hard limited with a reset time already passed
(at now = 10), a built-up backoff of 2250 ms, and an hourly window within
the conservative threshold: getWaitTime caps the wait with the freshly
reset 1000 ms floor rather than with the 2250 ms the state holds. -/
def waitFloorState : RateLimiter :=
  { requestsPerHour := 11, burstLimit := 100, backoffMultiplier := 3 / 2,
    maxBackoffMs := 60000, requests := [1], burstRequests := [],
    currentBackoffMs := 2250, isRateLimited := true, rateLimitResetTime := some 5 }

/-- A non-limited state whose burst window is at its capacity of 1, forcing
a wait. -/
def burstFullState : RateLimiter :=
  { requestsPerHour := 4500, burstLimit := 1, backoffMultiplier := 3 / 2,
    maxBackoffMs := 60000, requests := [5], burstRequests := [5],
    currentBackoffMs := 1000, isRateLimited := false, rateLimitResetTime := none }

/-- A hard-limited state whose reset time (100) is still in the future at
now = 40. -/
def limitedState : RateLimiter :=
  { requestsPerHour := 4500, burstLimit := 100, backoffMultiplier := 3 / 2,
    maxBackoffMs := 60000, requests := [], burstRequests := [],
    currentBackoffMs := 1000, isRateLimited := true, rateLimitResetTime := some 100 }

/-- A non-limited state whose hourly window is within the conservative
threshold (10 of 11 requests remaining would be left after the one recorded
request). -/
def hourlyLowState : RateLimiter :=
  { requestsPerHour := 11, burstLimit := 100, backoffMultiplier := 3 / 2,
    maxBackoffMs := 60000, requests := [1], burstRequests := [],
    currentBackoffMs := 2250, isRateLimited := false, rateLimitResetTime := none }

/-! # Theorems -/

/-- Helper for C9: looking a key up after filtering away every pair with
that key yields nothing. -/
theorem lookup_filter_self {β : Type} (key : String) (l : List (String × β)) :
    (l.filter (fun p => p.1 != key)).lookup key = none := by
  induction l with
  | nil => rfl
  | cons h t ih =>
    by_cases hk : h.1 = key
    · simpa [List.filter_cons, hk] using ih
    · have hkb : (key == h.1) = false := beq_eq_false_iff_ne.mpr (fun e => hk e.symm)
      simp [List.filter_cons, List.lookup, hk, ih, bne_iff_ne, hkb]

/-- C1 (amended): makeRequest retries the whole operation after every
detected rate-limit failure, with no bound on the number of attempts: a run
of n rate-limit failures followed by a success returns that success after
n + 1 attempts, and a run of n rate-limit failures followed by any other
error propagates that error after n + 1 attempts.  In particular a second
rate-limit failure does not propagate; it triggers a third attempt. -/
theorem makeRequest_retries_unbounded :
    (∀ (n : ℕ) (v : Json),
      makeRequest (List.replicate n (ApiOutcome.rateLimited none) ++ [ApiOutcome.ok v])
        = some (RequestOutcome.success v (n + 1)))
    ∧ (∀ n : ℕ,
      makeRequest (List.replicate n (ApiOutcome.rateLimited none) ++ [ApiOutcome.otherError])
        = some (RequestOutcome.failed (n + 1))) := by
  constructor
  · intro n v
    induction n with
    | zero => rfl
    | succ k ih => simp [List.replicate_succ, makeRequest, ih]
  · intro n
    induction n with
    | zero => rfl
    | succ k ih => simp [List.replicate_succ, makeRequest, ih]

/-- C1 counterexample: with both the first and the retried attempt failing
on the rate limit and the third attempt succeeding, makeRequest succeeds
after three attempts — the claimed behavior (the second rate-limit failure
propagates as a fatal error, no third attempt is made) would instead give a
failed outcome after exactly two attempts. -/
theorem makeRequest_makes_third_attempt :
    makeRequest [ApiOutcome.rateLimited none, ApiOutcome.rateLimited none,
                 ApiOutcome.ok Json.null]
      = some (RequestOutcome.success Json.null 3)
    ∧ makeRequest [ApiOutcome.rateLimited none, ApiOutcome.rateLimited none,
                   ApiOutcome.ok Json.null]
      ≠ some (RequestOutcome.failed 2) :=
  ⟨rfl, fun h => RequestOutcome.noConfusion (Option.some.inj h)⟩

/-- C2 (amended): the cache key is a deterministic md5 hash of the
JSON.stringify serialization of its input, with object keys serialized in
insertion order: any two inputs with equal serializations — in particular
equal key-value mappings listed in the same order — hash to the same key,
for generateKey and for paginatedKey. -/
theorem generateKey_deterministic_on_serialization :
    (∀ j1 j2 : Json, Json.stringify j1 = Json.stringify j2 →
      generateKey j1 = generateKey j2)
    ∧ (∀ (type owner repo : String) (p1 p2 : List (String × Json)),
      Json.stringify (Json.obj
          ([(("type" : String), Json.str type),
            (("owner" : String), Json.str owner),
            (("repo" : String), Json.str repo)] ++ p1))
        = Json.stringify (Json.obj
          ([(("type" : String), Json.str type),
            (("owner" : String), Json.str owner),
            (("repo" : String), Json.str repo)] ++ p2)) →
      paginatedKey type owner repo p1 = paginatedKey type owner repo p2) := by
  constructor
  · intro j1 j2 h
    unfold generateKey
    rw [h]
  · intro type owner repo p1 p2 h
    unfold paginatedKey generateKey
    rw [h]

/-- Witness for the C2 theorem at a concrete object. -/
theorem generateKey_deterministic_on_serialization_witness :
    generateKey (Json.obj [(("a" : String), Json.num 1)])
      = generateKey (Json.obj [(("a" : String), Json.num 1)]) :=
  generateKey_deterministic_on_serialization.1 _ _ rfl

set_option maxRecDepth 1000000 in
/-- C2 counterexample: two params objects that are equal as key-value
mappings (one is a permutation of the other) but listed in different key
orders produce different cache keys, because JSON.stringify preserves
property insertion order and md5 hashes the two serializations to
different digests. -/
theorem paginatedKey_key_order_sensitive :
    List.Perm
      [(("since" : String), Json.str ("2024-01-01")),
       (("until" : String), Json.str ("2024-03-31"))]
      [(("until" : String), Json.str ("2024-03-31")),
       (("since" : String), Json.str ("2024-01-01"))]
    ∧ paginatedKey ("pulls") ("octo") ("repo1")
        [(("since" : String), Json.str ("2024-01-01")),
         (("until" : String), Json.str ("2024-03-31"))]
      ≠ paginatedKey ("pulls") ("octo") ("repo1")
        [(("until" : String), Json.str ("2024-03-31")),
         (("since" : String), Json.str ("2024-01-01"))] :=
  ⟨List.Perm.swap _ _ _, by decide⟩

/-- C4 (amended): the client-side window filter of getPullRequests keeps a
fetched record if and only if its createdAt lies in the closed interval
from since to until: both endpoints are inclusive (createdAt >= since &&
createdAt <= until in the source), not the half-open interval of the
specification. -/
theorem filterPulls_mem_iff :
    ∀ (since untl : Int) (l : List RawPR) (pr : RawPR),
      pr ∈ filterPulls since untl l ↔
        pr ∈ l ∧ since ≤ pr.created_at ∧ pr.created_at ≤ untl := by
  intro since untl l pr
  simp [filterPulls, prInWindow, List.mem_filter, Bool.and_eq_true, decide_eq_true_eq,
    and_assoc]

/-- C4 counterexample: a record created exactly at the until boundary is
kept by the filter, although the claimed half-open window excludes it
(its createdAt is not strictly before until). -/
theorem filterPulls_keeps_until_boundary :
    filterPulls 0 100 [{ number := 1, created_at := 100 }]
      = [{ number := 1, created_at := 100 }]
    ∧ ¬ ((100 : Int) < 100) := by
  constructor
  · decide
  · decide

/-- C9: within maxAge of a set, get returns the stored payload unchanged;
once strictly more than maxAge has elapsed, get returns the null miss
sentinel and has evicted the entry from the store. -/
theorem cache_set_get_roundtrip :
    ∀ (cm : CacheManager) (key : String) (v : Json) (t1 t2 : Int),
      cm.enabled = true →
      (t2 - t1 ≤ cm.maxAge → ((cm.set key v t1).get key t2).1 = v)
      ∧ (cm.maxAge < t2 - t1 →
          ((cm.set key v t1).get key t2).1 = Json.null
          ∧ ((cm.set key v t1).get key t2).2.store.lookup key = none) := by
  intro cm key v t1 t2 henabled
  constructor
  · intro hfresh
    simp [CacheManager.set, CacheManager.get, CacheManager.isExpired, henabled,
      List.lookup, not_lt.mpr hfresh]
  · intro hstale
    constructor
    · simp [CacheManager.set, CacheManager.get, CacheManager.isExpired, henabled,
        List.lookup, hstale]
    · simp [CacheManager.set, CacheManager.get, CacheManager.isExpired, henabled,
        List.lookup, hstale, List.filter_cons, lookup_filter_self]

/-- Witness for the C9 theorem: a concrete fresh read returns the stored
payload, and a concrete stale read misses and evicts. -/
theorem cache_set_get_roundtrip_witness :
    (((⟨1000, true, []⟩ : CacheManager).set ("k") (Json.num 42) 0).get ("k") 500).1
        = Json.num 42
    ∧ ((((⟨1000, true, []⟩ : CacheManager).set ("k") (Json.num 42) 0).get ("k") 2000).1
        = Json.null
      ∧ ((((⟨1000, true, []⟩ : CacheManager).set ("k") (Json.num 42) 0).get ("k") 2000).2.store.lookup ("k")
        = none)) :=
  ⟨(cache_set_get_roundtrip ⟨1000, true, []⟩ ("k") (Json.num 42) 0 500 rfl).1 (by decide),
   (cache_set_get_roundtrip ⟨1000, true, []⟩ ("k") (Json.num 42) 0 2000 rfl).2 (by decide)⟩

/-- Helper for C3: the getPullRequests loop iterates when the page is full
and contributed at least one in-window record. -/
theorem getPullRequestsPages_continue (pages : ℕ → List RawPR) (since untl : Int)
    (fuel page : ℕ) (h100 : (pages page).length = 100)
    (hpos : filterPulls since untl (pages page) ≠ []) :
    getPullRequestsPages pages since untl (fuel + 1) page
      = (filterPulls since untl (pages page)
          ++ (getPullRequestsPages pages since untl fuel (page + 1)).1,
         (getPullRequestsPages pages since untl fuel (page + 1)).2 + 1) := by
  simp [getPullRequestsPages, h100, List.length_pos.mpr hpos]

/-- Helper for C3: the getPullRequests loop stops on a page that is short
or contributes no in-window records. -/
theorem getPullRequestsPages_stop (pages : ℕ → List RawPR) (since untl : Int)
    (fuel page : ℕ)
    (h : ¬ ((pages page).length = 100 ∧ 0 < (filterPulls since untl (pages page)).length)) :
    getPullRequestsPages pages since untl (fuel + 1) page
      = (filterPulls since untl (pages page), 1) := by
  simp only [getPullRequestsPages, if_neg h]

/-- Helper for C3: the getCommits loop iterates on a page of (at least) the
full page size. -/
theorem getCommitsPages_continue (pages : ℕ → List Commit) (fuel page : ℕ)
    (h : ¬ (pages page).length < 100) :
    getCommitsPages pages (fuel + 1) page
      = (pages page ++ (getCommitsPages pages fuel (page + 1)).1,
         (getCommitsPages pages fuel (page + 1)).2 + 1) := by
  simp only [getCommitsPages, if_neg h]

/-- Helper for C3: the getCommits loop stops on a short page. -/
theorem getCommitsPages_stop (pages : ℕ → List Commit) (fuel page : ℕ)
    (h : (pages page).length < 100) :
    getCommitsPages pages (fuel + 1) page = (pages page, 1) := by
  simp only [getCommitsPages, if_pos h]

/-- C3: both pagination loops request pages from 1 upward in increments of
1, accumulate results, and stop exactly when a page is short or (for the
PR loop) contributes no in-window records: with pages 1 and 2 full —  and,
for the PR loop, each contributing an in-window record, as otherwise its
stop condition already halts the loop — and page 3 short or contributing
nothing, the loop returns exactly the accumulated (for PRs: in-window)
union of pages 1 to 3 after exactly 3 page requests, so no 4th request is
issued. -/
theorem pagination_three_page_stop :
    (∀ (pages : ℕ → List RawPR) (since untl : Int) (fuel : ℕ),
      3 ≤ fuel →
      (pages 1).length = 100 →
      (pages 2).length = 100 →
      filterPulls since untl (pages 1) ≠ [] →
      filterPulls since untl (pages 2) ≠ [] →
      ((pages 3).length < 100 ∨ filterPulls since untl (pages 3) = []) →
      getPullRequestsPages pages since untl fuel 1
        = (filterPulls since untl (pages 1) ++ filterPulls since untl (pages 2)
            ++ filterPulls since untl (pages 3), 3))
    ∧ (∀ (pages : ℕ → List Commit) (fuel : ℕ),
      3 ≤ fuel →
      (pages 1).length = 100 →
      (pages 2).length = 100 →
      (pages 3).length < 100 →
      getCommitsPages pages fuel 1 = (pages 1 ++ pages 2 ++ pages 3, 3)) := by
  constructor
  · intro pages since untl fuel hfuel h1 h2 hf1 hf2 h3
    obtain ⟨f, rfl⟩ : ∃ f, fuel = f + 3 := ⟨fuel - 3, by omega⟩
    have hstop : ¬ ((pages 3).length = 100 ∧ 0 < (filterPulls since untl (pages 3)).length) := by
      rcases h3 with h | h
      · intro hc
        omega
      · intro hc
        rw [h] at hc
        exact absurd hc.2 (by simp)
    rw [show f + 3 = f + 2 + 1 from rfl,
        getPullRequestsPages_continue pages since untl (f + 2) 1 h1 hf1,
        show f + 2 = f + 1 + 1 from rfl,
        getPullRequestsPages_continue pages since untl (f + 1) 2 h2 hf2,
        show (2 : ℕ) + 1 = 3 from rfl,
        show f + 1 = f + 1 from rfl,
        getPullRequestsPages_stop pages since untl f 3 hstop]
    simp [List.append_assoc]
  · intro pages fuel hfuel h1 h2 h3
    obtain ⟨f, rfl⟩ : ∃ f, fuel = f + 3 := ⟨fuel - 3, by omega⟩
    rw [show f + 3 = f + 2 + 1 from rfl,
        getCommitsPages_continue pages (f + 2) 1 (by omega),
        show f + 2 = f + 1 + 1 from rfl,
        getCommitsPages_continue pages (f + 1) 2 (by omega),
        show (2 : ℕ) + 1 = 3 from rfl,
        getCommitsPages_stop pages f 3 h3]
    simp [List.append_assoc]

/-- Witness for the C3 theorem at concrete three-page sources. -/
theorem pagination_three_page_stop_witness :
    getPullRequestsPages examplePRPages 0 100 10 1
      = (filterPulls 0 100 (examplePRPages 1) ++ filterPulls 0 100 (examplePRPages 2)
          ++ filterPulls 0 100 (examplePRPages 3), 3)
    ∧ getCommitsPages exampleCommitPages 10 1
      = (exampleCommitPages 1 ++ exampleCommitPages 2 ++ exampleCommitPages 3, 3) :=
  ⟨pagination_three_page_stop.1 examplePRPages 0 100 10 (by norm_num) (by decide)
      (by decide) (by decide) (by decide) (Or.inl (by decide)),
   pagination_three_page_stop.2 exampleCommitPages 10 (by norm_num) (by decide)
      (by decide) (by decide)⟩

/-- Helper for C6: a nonempty list always has a first minimum. -/
theorem firstMinBy_cons_ne_none {α : Type} (key : α → Int) (b : α) (u : List α) :
    firstMinBy key (b :: u) ≠ none := by
  rw [firstMinBy]
  cases firstMinBy key u with
  | none => simp
  | some c => by_cases h : key c < key b <;> simp [h]

/-- Helper for C6: the head of a stable insertion sort by a key is the
first element of the list attaining the minimal key. -/
theorem insertionSort_head?_eq_firstMinBy {α : Type} (key : α → Int) (l : List α) :
    (List.insertionSort (fun a b => key a ≤ key b) l).head? = firstMinBy key l := by
  induction l with
  | nil => rfl
  | cons a l ih =>
    rw [List.insertionSort]
    cases hs : List.insertionSort (fun a b => key a ≤ key b) l with
    | nil =>
      have hl : l = [] := by
        have hlen := congrArg List.length hs
        simpa [List.length_insertionSort] using hlen
      subst hl
      rfl
    | cons b t =>
      have hb : firstMinBy key l = some b := by
        rw [← ih, hs]
        rfl
      by_cases hab : key a ≤ key b
      · have h2 : ¬ key b < key a := not_lt.mpr hab
        simp [hs, List.orderedInsert, hab, firstMinBy, hb, h2]
      · have h2 : key b < key a := not_le.mp hab
        simp [hs, List.orderedInsert, hab, firstMinBy, hb, h2]

/-- Helper for C6: the first minimum belongs to the list and its key is
minimal over the list. -/
theorem firstMinBy_mem_min {α : Type} (key : α → Int) :
    ∀ (l : List α) (x : α), firstMinBy key l = some x →
      x ∈ l ∧ ∀ y ∈ l, key x ≤ key y := by
  intro l
  induction l with
  | nil =>
    intro x h
    exact absurd h (by simp [firstMinBy])
  | cons a t ih =>
    intro x h
    cases ht : firstMinBy key t with
    | none =>
      rw [firstMinBy, ht] at h
      have hx : a = x := Option.some.inj h
      subst hx
      have htnil : t = [] := by
        cases t with
        | nil => rfl
        | cons b u => exact absurd ht (firstMinBy_cons_ne_none key b u)
      subst htnil
      refine ⟨List.mem_singleton_self a, ?_⟩
      intro y hy
      rw [List.mem_singleton] at hy
      subst hy
      exact le_refl _
    | some b =>
      obtain ⟨hbmem, hbmin⟩ := ih b ht
      rw [firstMinBy, ht] at h
      have h' : (if key b < key a then some b else some a) = some x := h
      by_cases hlt : key b < key a
      · rw [if_pos hlt] at h'
        have hx : b = x := Option.some.inj h'
        subst hx
        refine ⟨List.mem_cons_of_mem _ hbmem, ?_⟩
        intro y hy
        rcases List.mem_cons.mp hy with rfl | hy
        · exact le_of_lt hlt
        · exact hbmin y hy
      · rw [if_neg hlt] at h'
        have hx : a = x := Option.some.inj h'
        subst hx
        refine ⟨List.mem_cons_self _ _, ?_⟩
        intro y hy
        rcases List.mem_cons.mp hy with rfl | hy
        · exact le_refl _
        · exact le_trans (not_lt.mp hlt) (hbmin y hy)

/-- C6: analyzePullRequest is null exactly on unmerged PRs; on merged PRs
it yields the truncated hours from creation to merge as the cycle time,
the size additions + deletions, and the review time taken from the first
approved review attaining the earliest submitted_at (ties broken by
original order, none when no approval exists) — and on the two PRs of the
specification example (merged after 5h with an approval at 2h, and merged
after 15h with no approvals) the summary reports a cycle-time mean of 10h
and a review-time count of 1 with mean 2h. -/
theorem analyzePullRequest_spec :
    (∀ (pr : RawPRDetail) (reviews : List RawReview),
      analyzePullRequest pr reviews = none ↔ pr.merged_at = none)
    ∧ (∀ (pr : RawPRDetail) (reviews : List RawReview) (mergedAt : Int) (metric : PRMetric),
      pr.merged_at = some mergedAt →
      analyzePullRequest pr reviews = some metric →
        metric.cycleTimeHours = differenceInHours mergedAt pr.created_at
        ∧ metric.prSize.totalChanges = pr.additions + pr.deletions
        ∧ metric.reviewTimeHours
            = (firstMinBy (fun r => r.submitted_at) (approvedReviews reviews)).map
                (fun r => differenceInHours r.submitted_at pr.created_at))
    ∧ (∀ (reviews : List RawReview) (r : RawReview),
      firstMinBy (fun rv => rv.submitted_at) (approvedReviews reviews) = some r →
        r ∈ approvedReviews reviews
        ∧ ∀ r2 ∈ approvedReviews reviews, r.submitted_at ≤ r2.submitted_at)
    ∧ (calculateMetricsSummary
        ((analyzePullRequest examplePR1 exampleReviews1).toList
          ++ (analyzePullRequest examplePR2 exampleReviews2).toList)).map
        (fun s => (s.cycleTime.avgHours, s.reviewTime.count, s.reviewTime.avgHours))
      = some (10, 1, 2) := by
  refine ⟨?_, ?_, ?_, ?_⟩
  · intro pr reviews
    cases h : pr.merged_at <;> simp [analyzePullRequest, h]
  · intro pr reviews mergedAt metric hm hpr
    rw [analyzePullRequest, hm] at hpr
    have hmetric := (Option.some.inj hpr).symm
    subst hmetric
    refine ⟨rfl, rfl, ?_⟩
    show (sortBySubmitted (approvedReviews reviews)).head?.map _ = _
    rw [sortBySubmitted, insertionSort_head?_eq_firstMinBy]
  · intro reviews r h
    exact firstMinBy_mem_min _ (approvedReviews reviews) r h
  · have h1 : analyzePullRequest examplePR1 exampleReviews1 = some exampleMetric1 := rfl
    have h2 : analyzePullRequest examplePR2 exampleReviews2 = some exampleMetric2 := rfl
    rw [h1, h2]
    show (calculateMetricsSummary [exampleMetric1, exampleMetric2]).map _ = _
    simp only [calculateMetricsSummary, exampleMetric1, exampleMetric2, average,
      List.map_cons, List.map_nil, List.filterMap_cons, List.filterMap_nil,
      Option.map_some, Option.map_none, List.length_cons, List.length_nil,
      List.foldl_cons, List.foldl_nil, Option.map]
    norm_num

/-- Witness for the C6 theorem at the first example PR. -/
theorem analyzePullRequest_spec_witness :
    exampleMetric1.cycleTimeHours = differenceInHours 18000000 examplePR1.created_at
    ∧ exampleMetric1.prSize.totalChanges = examplePR1.additions + examplePR1.deletions
    ∧ exampleMetric1.reviewTimeHours
        = (firstMinBy (fun r => r.submitted_at) (approvedReviews exampleReviews1)).map
            (fun r => differenceInHours r.submitted_at examplePR1.created_at) :=
  analyzePullRequest_spec.2.1 examplePR1 exampleReviews1 18000000 exampleMetric1 rfl rfl

/-- C5: the period comparison — per metric the delta is null when either
side is falsy (absent or zero); otherwise percentChange is
(current - previous) / previous * 100, the improvement is -percentChange
for the lower-is-better metrics (comparePeriors marks cycle time, review
time and PR size lower-is-better and the PR count higher-is-better) and
+percentChange otherwise, and isImprovement holds iff the improvement is
positive; the overall improvement is the arithmetic mean of the non-null
improvements (zero when none); and the band is minimal below 5, moderate
below 15, significant otherwise, on the absolute overall improvement. -/
theorem comparePeriors_spec :
    (∀ (oldValue newValue : Option ℚ) (lowerIsBetter : Bool),
      calculateImprovement oldValue newValue lowerIsBetter = none
        ↔ (falsyNum oldValue = true ∨ falsyNum newValue = true))
    ∧ (∀ (o n : ℚ) (lowerIsBetter : Bool), o ≠ 0 → n ≠ 0 →
      calculateImprovement (some o) (some n) lowerIsBetter
        = some { oldValue := o, newValue := n,
                 percentChange := (n - o) / o * 100,
                 improvement :=
                   if lowerIsBetter then -((n - o) / o * 100) else (n - o) / o * 100,
                 isImprovement :=
                   decide (0 < (if lowerIsBetter then -((n - o) / o * 100)
                                else (n - o) / o * 100)) })
    ∧ (∀ (oldValue newValue : Option ℚ) (lowerIsBetter : Bool) (res : ImprovementResult),
      calculateImprovement oldValue newValue lowerIsBetter = some res →
        (res.isImprovement = true ↔ 0 < res.improvement))
    ∧ (∀ currentPeriod previousPeriod : Option MetricsSummary,
      (comparePeriors currentPeriod previousPeriod).cycleTime
          = calculateImprovement (previousPeriod.map fun s => s.cycleTime.avgHours)
              (currentPeriod.map fun s => s.cycleTime.avgHours) true
        ∧ (comparePeriors currentPeriod previousPeriod).reviewTime
          = calculateImprovement (previousPeriod.map fun s => s.reviewTime.avgHours)
              (currentPeriod.map fun s => s.reviewTime.avgHours) true
        ∧ (comparePeriors currentPeriod previousPeriod).prSize
          = calculateImprovement (previousPeriod.map fun s => s.prSize.avgChanges)
              (currentPeriod.map fun s => s.prSize.avgChanges) true
        ∧ (comparePeriors currentPeriod previousPeriod).totalPRs
          = calculateImprovement (previousPeriod.map fun s => (s.totalPRs : ℚ))
              (currentPeriod.map fun s => (s.totalPRs : ℚ)) false)
    ∧ (∀ c r p t : Option ImprovementResult,
      calculateOverallImprovement c r p t =
        (let imps := List.filterMap (fun x => Option.map ImprovementResult.improvement x)
          [c, r, p, t]
         if imps.length = 0 then 0 else imps.foldl (· + ·) (0 : ℚ) / (imps.length : ℚ)))
    ∧ (calculateOverallImprovement none none none none = 0)
    ∧ (∀ cur prev : Option MetricsSummary,
      (comparePeriors cur prev).overallImprovement
        = calculateOverallImprovement (comparePeriors cur prev).cycleTime
            (comparePeriors cur prev).reviewTime (comparePeriors cur prev).prSize
            (comparePeriors cur prev).totalPRs
      ∧ (comparePeriors cur prev).band = impactOf (comparePeriors cur prev).overallImprovement)
    ∧ (∀ x : ℚ,
      (impactOf x = Impact.minimal ↔ |x| < 5)
      ∧ (impactOf x = Impact.moderate ↔ 5 ≤ |x| ∧ |x| < 15)
      ∧ (impactOf x = Impact.significant ↔ 15 ≤ |x|)) := by
  refine ⟨?_, ?_, ?_, ?_, ?_, ?_, ?_, ?_⟩
  · intro oldValue newValue lowerIsBetter
    cases ho : falsyNum oldValue <;> cases hn : falsyNum newValue <;>
      simp [calculateImprovement, ho, hn]
  · intro o n lowerIsBetter ho hn
    have hob : (o == 0) = false := beq_eq_false_iff_ne.mpr ho
    have hnb : (n == 0) = false := beq_eq_false_iff_ne.mpr hn
    simp [calculateImprovement, falsyNum, hob, hnb]
  · intro oldValue newValue lowerIsBetter res h
    rw [calculateImprovement] at h
    split at h
    · exact absurd h (by simp)
    · have hres := (Option.some.inj h).symm
      subst hres
      simp [decide_eq_true_eq]
  · intro currentPeriod previousPeriod
    exact ⟨rfl, rfl, rfl, rfl⟩
  · intro c r p t
    simp only [calculateOverallImprovement, average]
    by_cases h : (List.filterMap (fun x => Option.map ImprovementResult.improvement x)
        [c, r, p, t]).length = 0
    · simp [h]
    · simp [h, Nat.pos_of_ne_zero h]
  · rfl
  · intro cur prev
    exact ⟨rfl, rfl⟩
  · intro x
    unfold impactOf
    by_cases h1 : |x| < 5
    · have h15 : |x| < 15 := lt_trans h1 (by norm_num)
      simp [h1, not_le.mpr h1, not_le.mpr h15]
    · by_cases h2 : |x| < 15
      · simp [h1, h2, not_lt.mp h1, not_le.mpr h2]
      · simp [h1, h2, not_lt.mp h1, not_lt.mp h2]

/-- Witness for the C5 theorem at the specification example: previous
cycle-time mean 40h, current 30h, lower is better, giving percentChange
-25, improvement +25, isImprovement true, and the significant band. -/
theorem comparePeriors_spec_witness :
    calculateImprovement (some 40) (some 30) true
      = some { oldValue := 40, newValue := 30, percentChange := -25,
               improvement := 25, isImprovement := true }
    ∧ impactOf 25 = Impact.significant := by
  constructor
  · rw [comparePeriors_spec.2.1 40 30 true (by norm_num) (by norm_num)]
    norm_num [ImprovementResult.mk.injEq]
  · exact ((comparePeriors_spec.2.2.2.2.2.2.2 25).2.2).mpr (by norm_num)

/-- Helper for C7 and C8: pruning the sliding windows is idempotent. -/
theorem cleanOldRequests_idem (st : RateLimiter) (now : ℚ) :
    (st.cleanOldRequests now).cleanOldRequests now = st.cleanOldRequests now := by
  unfold RateLimiter.cleanOldRequests
  simp [List.filter_filter]

/-- Helper for C7 and C8: the state returned by the budget checks is the
pruned input state. -/
theorem getWaitTimeBudget_snd (st : RateLimiter) (now : ℚ) :
    (st.getWaitTimeBudget now).2 = st.cleanOldRequests now := by
  unfold RateLimiter.getWaitTimeBudget
  dsimp only
  split
  · split <;> rfl
  · split
    · split
      · split <;> rfl
      · rfl
    · rfl

/-- Helper for C7 and C8: a limiter that is not hard limited goes straight
to the budget checks on the pruned state. -/
theorem getWaitTime_eq_budget_of_not_limited (st : RateLimiter) (now : ℚ)
    (h : st.isRateLimited = false) :
    st.getWaitTime now = (st.cleanOldRequests now).getWaitTimeBudget now := by
  rw [RateLimiter.getWaitTime]
  have h1 : (st.cleanOldRequests now).isRateLimited = false := h
  simp [h1]

/-- Helper for C7 and C8 (and the crossing case of C8 itself): when the
hard-limit reset time has passed, getWaitTime clears the limited flag,
drops the reset time, resets the backoff to the 1000 ms floor, and runs
the budget checks on that state. -/
theorem getWaitTime_crossing (st : RateLimiter) (now r : ℚ)
    (hl : st.isRateLimited = true) (hr : st.rateLimitResetTime = some r)
    (hr0 : r ≠ 0) (hpast : r ≤ now) :
    st.getWaitTime now
      = RateLimiter.getWaitTimeBudget
          { st.cleanOldRequests now with
            isRateLimited := false, rateLimitResetTime := none, currentBackoffMs := 1000 }
          now := by
  rw [RateLimiter.getWaitTime]
  have hl1 : (st.cleanOldRequests now).isRateLimited = true := hl
  have hr1 : (st.cleanOldRequests now).rateLimitResetTime = some r := hr
  have hmax : max 0 (r - now) = 0 := max_eq_left (by linarith)
  simp [hl1, hr1, jsTruthy, hr0, hmax]

/-- Helper for C8: the minimum of a rational list is a member. -/
theorem qmin?_mem {l : List ℚ} {m : ℚ} (h : l.min? = some m) : m ∈ l :=
  List.min?_mem (fun a b => min_choice a b) h

/-- Helper for C8: the budget checks on a burst window at capacity return
the time until its oldest member expires. -/
theorem getWaitTimeBudget_fst_burst (s : RateLimiter) (now m : ℚ)
    (hcap : (s.cleanOldRequests now).burstLimit
      ≤ ((s.cleanOldRequests now).burstRequests.length : ℚ))
    (hmin : (s.cleanOldRequests now).burstRequests.min? = some m) :
    (s.getWaitTimeBudget now).1 = max 0 (m + 60000 - now) := by
  unfold RateLimiter.getWaitTimeBudget
  dsimp only
  have hcond : max 0 ((s.cleanOldRequests now).burstLimit
      - ((s.cleanOldRequests now).burstRequests.length : ℚ)) ≤ 0 :=
    max_le (le_refl 0) (by linarith)
  rw [if_pos hcond, hmin]

/-- Helper for C8: the budget checks within the hourly threshold return
the time until the oldest hourly member expires, capped by the current
backoff. -/
theorem getWaitTimeBudget_fst_hourly (s : RateLimiter) (now m : ℚ)
    (hburst : ((s.cleanOldRequests now).burstRequests.length : ℚ)
      < (s.cleanOldRequests now).burstLimit)
    (hthresh : (s.cleanOldRequests now).requestsPerHour
      - ((s.cleanOldRequests now).requests.length : ℚ) ≤ 10)
    (hmin : (s.cleanOldRequests now).requests.min? = some m)
    (hpos : 0 < m + 3600000 - now) :
    (s.getWaitTimeBudget now).1
      = min (m + 3600000 - now) (s.currentBackoffMs) := by
  unfold RateLimiter.getWaitTimeBudget
  dsimp only
  have hgt : ¬ max 0 ((s.cleanOldRequests now).burstLimit
      - ((s.cleanOldRequests now).burstRequests.length : ℚ)) ≤ 0 := by
    have h1 : (0 : ℚ) < (s.cleanOldRequests now).burstLimit
        - ((s.cleanOldRequests now).burstRequests.length : ℚ) := by linarith
    have h2 := lt_of_lt_of_le h1 (le_max_right 0 _)
    exact not_le.mpr h2
  have hc2 : max 0 ((s.cleanOldRequests now).requestsPerHour
      - ((s.cleanOldRequests now).requests.length : ℚ)) ≤ 10 :=
    max_le (by norm_num) hthresh
  rw [if_neg hgt, if_pos hc2, hmin]
  dsimp only
  have hmax : max 0 (m + 3600000 - now) = m + 3600000 - now := max_eq_right (le_of_lt hpos)
  rw [hmax, if_pos hpos]
  rfl

/-- Helper for C8: the budget checks with both windows comfortably under
their limits return zero. -/
theorem getWaitTimeBudget_fst_zero (s : RateLimiter) (now : ℚ)
    (hburst : ((s.cleanOldRequests now).burstRequests.length : ℚ)
      < (s.cleanOldRequests now).burstLimit)
    (hmargin : 10 < (s.cleanOldRequests now).requestsPerHour
      - ((s.cleanOldRequests now).requests.length : ℚ)) :
    (s.getWaitTimeBudget now).1 = 0 := by
  unfold RateLimiter.getWaitTimeBudget
  dsimp only
  have hgt : ¬ max 0 ((s.cleanOldRequests now).burstLimit
      - ((s.cleanOldRequests now).burstRequests.length : ℚ)) ≤ 0 := by
    have h1 : (0 : ℚ) < (s.cleanOldRequests now).burstLimit
        - ((s.cleanOldRequests now).burstRequests.length : ℚ) := by linarith
    exact not_le.mpr (lt_of_lt_of_le h1 (le_max_right 0 _))
  have hc2 : ¬ max 0 ((s.cleanOldRequests now).requestsPerHour
      - ((s.cleanOldRequests now).requests.length : ℚ)) ≤ 10 := by
    have h1 := lt_of_lt_of_le hmargin (le_max_right 0 _)
    exact not_le.mpr h1
  rw [if_neg hgt, if_neg hc2]

/-- Helper for C7: getWaitTime never changes the configured ceiling and
multiplier. -/
theorem getWaitTime_snd_config (st : RateLimiter) (now : ℚ) :
    (st.getWaitTime now).2.maxBackoffMs = st.maxBackoffMs
    ∧ (st.getWaitTime now).2.backoffMultiplier = st.backoffMultiplier := by
  rw [RateLimiter.getWaitTime]
  dsimp only
  split
  · split
    · exact ⟨rfl, rfl⟩
    · rw [getWaitTimeBudget_snd]
      exact ⟨rfl, rfl⟩
  · rw [getWaitTimeBudget_snd]
    exact ⟨rfl, rfl⟩

/-- Helper for C7: a non-limited getWaitTime call leaves the backoff
unchanged. -/
theorem getWaitTime_snd_backoff_of_not_limited (st : RateLimiter) (now : ℚ)
    (h : st.isRateLimited = false) :
    (st.getWaitTime now).2.currentBackoffMs = st.currentBackoffMs := by
  rw [getWaitTime_eq_budget_of_not_limited st now h, getWaitTimeBudget_snd]
  rfl

/-- Helper for C7: a getWaitTime call that crosses a passed reset time has
floored the backoff. -/
theorem getWaitTime_snd_backoff_crossing (st : RateLimiter) (now r : ℚ)
    (hl : st.isRateLimited = true) (hr : st.rateLimitResetTime = some r)
    (hr0 : r ≠ 0) (hpast : r ≤ now) :
    (st.getWaitTime now).2.currentBackoffMs = 1000 := by
  rw [getWaitTime_crossing st now r hl hr hr0 hpast, getWaitTimeBudget_snd]
  rfl

/-- Helper for C7: a waitIfNeeded call that waited saw a positive computed
wait. -/
theorem waitIfNeeded_fst_pos (st : RateLimiter) (now : ℚ)
    (hw : 0 < (st.waitIfNeeded now).1) : 0 < (st.getWaitTime now).1 := by
  by_contra hc
  rw [RateLimiter.waitIfNeeded] at hw
  dsimp only at hw
  rw [if_neg hc] at hw
  exact absurd hw (lt_irrefl 0)

/-- Helper for C7: a non-limited waited call multiplies the backoff by the
multiplier, capped at the ceiling. -/
theorem waitIfNeeded_waited_eq (st : RateLimiter) (now : ℚ)
    (hlim : st.isRateLimited = false) (hw : 0 < (st.waitIfNeeded now).1) :
    (st.waitIfNeeded now).2.currentBackoffMs
      = min (st.currentBackoffMs * st.backoffMultiplier) st.maxBackoffMs := by
  have hc := waitIfNeeded_fst_pos st now hw
  rw [RateLimiter.waitIfNeeded]
  dsimp only
  rw [if_pos hc]
  dsimp only
  rw [getWaitTime_snd_backoff_of_not_limited st now hlim,
      (getWaitTime_snd_config st now).1, (getWaitTime_snd_config st now).2]

/-- Helper for C7: one waitIfNeeded call keeps the backoff at or below a
ceiling that is at least the floor. -/
theorem waitIfNeeded_ceiling (st : RateLimiter) (now : ℚ)
    (hceil : 1000 ≤ st.maxBackoffMs) :
    (st.waitIfNeeded now).2.currentBackoffMs ≤ st.maxBackoffMs := by
  rw [RateLimiter.waitIfNeeded]
  dsimp only
  split
  · dsimp only
    rw [(getWaitTime_snd_config st now).1]
    exact min_le_right _ _
  · dsimp only
    exact hceil

/-- Helper for C7: a waitIfNeeded call that took no wait resets the
backoff to the floor. -/
theorem waitIfNeeded_reset_eq (st : RateLimiter) (now : ℚ)
    (hz : (st.waitIfNeeded now).1 = 0) :
    (st.waitIfNeeded now).2.currentBackoffMs = 1000 := by
  by_cases hc : 0 < (st.getWaitTime now).1
  · exfalso
    rw [RateLimiter.waitIfNeeded] at hz
    dsimp only at hz
    rw [if_pos hc] at hz
    dsimp only at hz
    rw [hz] at hc
    exact lt_irrefl 0 hc
  · rw [RateLimiter.waitIfNeeded]
    dsimp only
    rw [if_neg hc]

/-- Helper for C7: a waited call that crossed a passed reset time applies
the multiplier to the freshly floored backoff. -/
theorem waitIfNeeded_crossing_eq (st : RateLimiter) (now r : ℚ)
    (hl : st.isRateLimited = true) (hr : st.rateLimitResetTime = some r)
    (hr0 : r ≠ 0) (hpast : r ≤ now) (hw : 0 < (st.waitIfNeeded now).1) :
    (st.waitIfNeeded now).2.currentBackoffMs
      = min (1000 * st.backoffMultiplier) st.maxBackoffMs := by
  have hc := waitIfNeeded_fst_pos st now hw
  rw [RateLimiter.waitIfNeeded]
  dsimp only
  rw [if_pos hc]
  dsimp only
  rw [getWaitTime_snd_backoff_crossing st now r hl hr hr0 hpast,
      (getWaitTime_snd_config st now).1, (getWaitTime_snd_config st now).2]

/-- Helper for C7: while hard limited with a truthy reset time still in
the future, getWaitTime returns the remaining time until reset and the
merely pruned state — in particular the backoff is untouched. -/
theorem getWaitTime_limited_future (st : RateLimiter) (now r : ℚ)
    (hl : st.isRateLimited = true) (hr : st.rateLimitResetTime = some r)
    (hr0 : r ≠ 0) (hlt : now < r) :
    st.getWaitTime now = (r - now, st.cleanOldRequests now) := by
  rw [RateLimiter.getWaitTime]
  dsimp only
  have hl1 : (st.cleanOldRequests now).isRateLimited = true := hl
  have hr1 : (st.cleanOldRequests now).rateLimitResetTime = some r := hr
  have hmax : max 0 (r - now) = r - now := max_eq_right (by linarith)
  simp [hl1, hr1, jsTruthy, hr0, hmax, sub_pos.mpr hlt]

/-- Helper for C7: with a falsy (absent or zero) reset time the hard-limit
branch is skipped regardless of the limited flag, and the budget checks
run on the pruned state. -/
theorem getWaitTime_eq_budget_of_falsy_reset (st : RateLimiter) (now : ℚ)
    (hfalsy : jsTruthy st.rateLimitResetTime = false) :
    st.getWaitTime now = (st.cleanOldRequests now).getWaitTimeBudget now := by
  rw [RateLimiter.getWaitTime]
  have h1 : jsTruthy (st.cleanOldRequests now).rateLimitResetTime = false := hfalsy
  simp [h1]

/-- Helper for C7: every waited call that does not cross a passed, truthy
hard-limit reset time — whether not limited at all, limited with a falsy
reset time, or limited with the reset still in the future — multiplies the
entry backoff by the multiplier, capped at the ceiling. -/
theorem waitIfNeeded_noncrossing_eq (st : RateLimiter) (now : ℚ)
    (hnc : ¬ (st.isRateLimited = true
      ∧ ∃ r, st.rateLimitResetTime = some r ∧ r ≠ 0 ∧ r ≤ now))
    (hw : 0 < (st.waitIfNeeded now).1) :
    (st.waitIfNeeded now).2.currentBackoffMs
      = min (st.currentBackoffMs * st.backoffMultiplier) st.maxBackoffMs := by
  have hc := waitIfNeeded_fst_pos st now hw
  have hpres : (st.getWaitTime now).2.currentBackoffMs = st.currentBackoffMs := by
    cases hl : st.isRateLimited with
    | false => exact getWaitTime_snd_backoff_of_not_limited st now hl
    | true =>
      cases hjt : jsTruthy st.rateLimitResetTime with
      | false =>
        rw [getWaitTime_eq_budget_of_falsy_reset st now hjt, getWaitTimeBudget_snd]
        rfl
      | true =>
        obtain ⟨r, hr, hr0⟩ : ∃ r, st.rateLimitResetTime = some r ∧ r ≠ 0 := by
          cases ho : st.rateLimitResetTime with
          | none =>
            rw [ho] at hjt
            exact absurd hjt (by simp [jsTruthy])
          | some r =>
            refine ⟨r, rfl, ?_⟩
            rw [ho] at hjt
            simpa [jsTruthy] using hjt
        have hlt : now < r := by
          by_contra hge
          exact hnc ⟨hl, r, hr, hr0, not_lt.mp hge⟩
        rw [getWaitTime_limited_future st now r hl hr hr0 hlt]
        rfl
  rw [RateLimiter.waitIfNeeded]
  dsimp only
  rw [if_pos hc]
  dsimp only
  rw [hpres, (getWaitTime_snd_config st now).1, (getWaitTime_snd_config st now).2]

/-- Helper for C7: the central hard-limit wait — limited with the reset
still in the future — takes a positive wait and multiplies the entry
backoff by the multiplier, capped at the ceiling. -/
theorem waitIfNeeded_limited_future_eq (st : RateLimiter) (now r : ℚ)
    (hl : st.isRateLimited = true) (hr : st.rateLimitResetTime = some r)
    (h0 : 0 ≤ now) (hlt : now < r) :
    0 < (st.waitIfNeeded now).1
    ∧ (st.waitIfNeeded now).2.currentBackoffMs
        = min (st.currentBackoffMs * st.backoffMultiplier) st.maxBackoffMs := by
  have hr0 : r ≠ 0 := ne_of_gt (lt_of_le_of_lt h0 hlt)
  have hgw := getWaitTime_limited_future st now r hl hr hr0 hlt
  have hgpos : 0 < (st.getWaitTime now).1 := by
    rw [hgw]
    exact sub_pos.mpr hlt
  have hfstpos : 0 < (st.waitIfNeeded now).1 := by
    rw [RateLimiter.waitIfNeeded]
    dsimp only
    rw [if_pos hgpos]
    exact hgpos
  refine ⟨hfstpos, ?_⟩
  refine waitIfNeeded_noncrossing_eq st now ?_ hfstpos
  rintro ⟨-, r', hr', -, hle'⟩
  rw [hr] at hr'
  have hrr : r = r' := Option.some.inj hr'
  subst hrr
  linarith

/-- C8 case lemma: explicitly limited with the reset in the future. -/
theorem getWaitTime_fst_limited (st : RateLimiter) (now r : ℚ)
    (hl : st.isRateLimited = true) (hr : st.rateLimitResetTime = some r)
    (h0 : 0 ≤ now) (hlt : now < r) :
    (st.getWaitTime now).1 = r - now := by
  rw [RateLimiter.getWaitTime]
  dsimp only
  have hl1 : (st.cleanOldRequests now).isRateLimited = true := hl
  have hr1 : (st.cleanOldRequests now).rateLimitResetTime = some r := hr
  have hrne : r ≠ 0 := ne_of_gt (lt_of_le_of_lt h0 hlt)
  have hmax : max 0 (r - now) = r - now := max_eq_right (by linarith)
  simp [hl1, hr1, jsTruthy, hrne, hmax, sub_pos.mpr hlt]

/-- C8 case lemma: not limited, with the pruned burst window at capacity. -/
theorem getWaitTime_fst_burst (st : RateLimiter) (now m : ℚ)
    (hlim : st.isRateLimited = false)
    (hcap : (st.cleanOldRequests now).burstLimit
      ≤ ((st.cleanOldRequests now).burstRequests.length : ℚ))
    (hmin : (st.cleanOldRequests now).burstRequests.min? = some m) :
    (st.getWaitTime now).1 = m + 60000 - now := by
  rw [getWaitTime_eq_budget_of_not_limited st now hlim]
  have hidem := cleanOldRequests_idem st now
  rw [getWaitTimeBudget_fst_burst (st.cleanOldRequests now) now m
    (by rw [hidem]; exact hcap) (by rw [hidem]; exact hmin)]
  have hm : m ∈ (st.cleanOldRequests now).burstRequests := qmin?_mem hmin
  have hd : decide (now - 60000 < m) = true := (List.mem_filter.mp hm).2
  have hlt : now - 60000 < m := of_decide_eq_true hd
  exact max_eq_right (by linarith)

/-- C8 case lemma: not limited, burst below capacity, at most 10 hourly
requests remaining. -/
theorem getWaitTime_fst_hourly (st : RateLimiter) (now m : ℚ)
    (hlim : st.isRateLimited = false)
    (hburst : ((st.cleanOldRequests now).burstRequests.length : ℚ)
      < (st.cleanOldRequests now).burstLimit)
    (hthresh : (st.cleanOldRequests now).requestsPerHour
      - ((st.cleanOldRequests now).requests.length : ℚ) ≤ 10)
    (hmin : (st.cleanOldRequests now).requests.min? = some m) :
    (st.getWaitTime now).1 = min (m + 3600000 - now) st.currentBackoffMs := by
  rw [getWaitTime_eq_budget_of_not_limited st now hlim]
  have hidem := cleanOldRequests_idem st now
  have hm : m ∈ (st.cleanOldRequests now).requests := qmin?_mem hmin
  have hd : decide (now - 3600000 < m) = true := (List.mem_filter.mp hm).2
  have hlt : now - 3600000 < m := of_decide_eq_true hd
  rw [getWaitTimeBudget_fst_hourly (st.cleanOldRequests now) now m
    (by rw [hidem]; exact hburst) (by rw [hidem]; exact hthresh)
    (by rw [hidem]; exact hmin) (by linarith)]
  rfl

/-- C8 case lemma: not limited, both windows comfortably under their
limits. -/
theorem getWaitTime_fst_zero (st : RateLimiter) (now : ℚ)
    (hlim : st.isRateLimited = false)
    (hburst : ((st.cleanOldRequests now).burstRequests.length : ℚ)
      < (st.cleanOldRequests now).burstLimit)
    (hmargin : 10 < (st.cleanOldRequests now).requestsPerHour
      - ((st.cleanOldRequests now).requests.length : ℚ)) :
    (st.getWaitTime now).1 = 0 := by
  rw [getWaitTime_eq_budget_of_not_limited st now hlim]
  have hidem := cleanOldRequests_idem st now
  rw [getWaitTimeBudget_fst_zero (st.cleanOldRequests now) now
    (by rw [hidem]; exact hburst) (by rw [hidem]; exact hmargin)]

/-- C7 (amended): the backoff delay of one waitIfNeeded call never ends
above a ceiling that is at least the 1000 ms floor, and the constructor
starts the delay at the floor, below the default ceiling; every waited
call that does not cross a passed hard-limit reset time — including the
central hard-limited wait whose reset is still in the future — multiplies
the delay by the multiplier capped at the ceiling, strictly increasing it
while it is positive and below the ceiling and the multiplier exceeds 1;
a call taking no wait resets the delay to the floor; but a waited call
that crosses a passed hard-limit reset time first resets the delay to the
floor and multiplies from there, so such a call can lower the delay
instead of increasing it. -/
theorem waitIfNeeded_backoff_spec :
    (∀ (st : RateLimiter) (now : ℚ), 1000 ≤ st.maxBackoffMs →
      (st.waitIfNeeded now).2.currentBackoffMs ≤ st.maxBackoffMs)
    ∧ (∀ requestsPerHour burstLimit : ℚ,
      (RateLimiter.init requestsPerHour burstLimit).currentBackoffMs = 1000
      ∧ (RateLimiter.init requestsPerHour burstLimit).currentBackoffMs
        ≤ (RateLimiter.init requestsPerHour burstLimit).maxBackoffMs)
    ∧ (∀ (st : RateLimiter) (now : ℚ),
      ¬ (st.isRateLimited = true
        ∧ ∃ r, st.rateLimitResetTime = some r ∧ r ≠ 0 ∧ r ≤ now) →
      0 < (st.waitIfNeeded now).1 →
      (st.waitIfNeeded now).2.currentBackoffMs
        = min (st.currentBackoffMs * st.backoffMultiplier) st.maxBackoffMs)
    ∧ (∀ (st : RateLimiter) (now : ℚ),
      ¬ (st.isRateLimited = true
        ∧ ∃ r, st.rateLimitResetTime = some r ∧ r ≠ 0 ∧ r ≤ now) →
      0 < (st.waitIfNeeded now).1 →
      0 < st.currentBackoffMs → st.currentBackoffMs < st.maxBackoffMs →
      1 < st.backoffMultiplier →
      st.currentBackoffMs < (st.waitIfNeeded now).2.currentBackoffMs)
    ∧ (∀ (st : RateLimiter) (now r : ℚ), st.isRateLimited = true →
      st.rateLimitResetTime = some r → 0 ≤ now → now < r →
      0 < (st.waitIfNeeded now).1
      ∧ (st.waitIfNeeded now).2.currentBackoffMs
          = min (st.currentBackoffMs * st.backoffMultiplier) st.maxBackoffMs)
    ∧ (∀ (st : RateLimiter) (now : ℚ),
      (st.waitIfNeeded now).1 = 0 → (st.waitIfNeeded now).2.currentBackoffMs = 1000)
    ∧ (∀ (st : RateLimiter) (now r : ℚ), st.isRateLimited = true →
      st.rateLimitResetTime = some r → r ≠ 0 → r ≤ now →
      0 < (st.waitIfNeeded now).1 →
      (st.waitIfNeeded now).2.currentBackoffMs
        = min (1000 * st.backoffMultiplier) st.maxBackoffMs) := by
  refine ⟨waitIfNeeded_ceiling,
    fun a b => ⟨rfl, by norm_num [RateLimiter.init]⟩,
    waitIfNeeded_noncrossing_eq, ?_, waitIfNeeded_limited_future_eq,
    waitIfNeeded_reset_eq, waitIfNeeded_crossing_eq⟩
  intro st now hnc hw h0 hlt hmult
  rw [waitIfNeeded_noncrossing_eq st now hnc hw]
  have h1 : st.currentBackoffMs < st.currentBackoffMs * st.backoffMultiplier := by
    calc st.currentBackoffMs = st.currentBackoffMs * 1 := (mul_one _).symm
    _ < st.currentBackoffMs * st.backoffMultiplier := mul_lt_mul_of_pos_left hmult h0
  exact lt_min h1 hlt

/-- Witness for the C7 theorem: a concrete (non-limited) waited call on a
full burst window strictly raises the backoff, and a concrete hard-limited
call with the reset still in the future takes a positive wait and
multiplies the entry backoff. -/
theorem waitIfNeeded_backoff_spec_witness :
    (burstFullState.currentBackoffMs < (burstFullState.waitIfNeeded 10).2.currentBackoffMs)
    ∧ (0 < (limitedState.waitIfNeeded 40).1
      ∧ (limitedState.waitIfNeeded 40).2.currentBackoffMs
          = min (limitedState.currentBackoffMs * limitedState.backoffMultiplier)
              limitedState.maxBackoffMs) :=
  ⟨waitIfNeeded_backoff_spec.2.2.2.1 burstFullState 10
    (by simp [burstFullState])
    (by norm_num [RateLimiter.waitIfNeeded, RateLimiter.getWaitTime,
      RateLimiter.getWaitTimeBudget, RateLimiter.cleanOldRequests, burstFullState,
      jsTruthy, List.min?, max_def, min_def])
    (by norm_num [burstFullState]) (by norm_num [burstFullState])
    (by norm_num [burstFullState]),
   waitIfNeeded_backoff_spec.2.2.2.2.1 limitedState 40 100 rfl rfl
    (by norm_num) (by norm_num)⟩

/-- C7 counterexample: on a state whose hard-limit reset time has passed,
a waitIfNeeded call that takes a positive wait lowers the backoff from
2250 ms to 1500 ms instead of multiplying it to the claimed
min(2250 * 1.5, 60000) = 3375 ms, because getWaitTime reset the delay to
the floor when it crossed the expired reset time — so consecutive waited
calls without an intervening clean request do not always increase the
delay. -/
theorem waitIfNeeded_backoff_drop :
    0 < (backoffDropState.waitIfNeeded 10).1
    ∧ (backoffDropState.waitIfNeeded 10).2.currentBackoffMs = 1500
    ∧ min (backoffDropState.currentBackoffMs * backoffDropState.backoffMultiplier)
        backoffDropState.maxBackoffMs = 3375
    ∧ (backoffDropState.waitIfNeeded 10).2.currentBackoffMs
        < backoffDropState.currentBackoffMs := by
  refine ⟨?_, ?_, ?_, ?_⟩ <;>
    norm_num [RateLimiter.waitIfNeeded, RateLimiter.getWaitTime,
      RateLimiter.getWaitTimeBudget, RateLimiter.cleanOldRequests, backoffDropState,
      jsTruthy, List.min?, max_def, min_def]

/-- C8 (amended): getWaitTime returns the remaining time until reset while
explicitly limited with the reset in the future; when the reset time has
passed it clears the limited state and resets the backoff to the floor
before the budget checks; otherwise, on the windows pruned to their one
hour and one minute horizons, it returns the time until the oldest burst
timestamp expires when the burst window is at capacity, else the minimum
of the time until the oldest hourly timestamp expires and the (possibly
just-floored) current backoff when at most 10 hourly requests remain, and
zero otherwise. -/
theorem getWaitTime_spec :
    (∀ (st : RateLimiter) (now r : ℚ), st.isRateLimited = true →
      st.rateLimitResetTime = some r → 0 ≤ now → now < r →
      (st.getWaitTime now).1 = r - now)
    ∧ (∀ (st : RateLimiter) (now r : ℚ), st.isRateLimited = true →
      st.rateLimitResetTime = some r → r ≠ 0 → r ≤ now →
      st.getWaitTime now
        = RateLimiter.getWaitTimeBudget
            { st.cleanOldRequests now with
              isRateLimited := false, rateLimitResetTime := none,
              currentBackoffMs := 1000 } now)
    ∧ (∀ (st : RateLimiter) (now m : ℚ), st.isRateLimited = false →
      (st.cleanOldRequests now).burstLimit
        ≤ ((st.cleanOldRequests now).burstRequests.length : ℚ) →
      (st.cleanOldRequests now).burstRequests.min? = some m →
      (st.getWaitTime now).1 = m + 60000 - now)
    ∧ (∀ (st : RateLimiter) (now m : ℚ), st.isRateLimited = false →
      ((st.cleanOldRequests now).burstRequests.length : ℚ)
        < (st.cleanOldRequests now).burstLimit →
      (st.cleanOldRequests now).requestsPerHour
        - ((st.cleanOldRequests now).requests.length : ℚ) ≤ 10 →
      (st.cleanOldRequests now).requests.min? = some m →
      (st.getWaitTime now).1 = min (m + 3600000 - now) st.currentBackoffMs)
    ∧ (∀ (st : RateLimiter) (now : ℚ), st.isRateLimited = false →
      ((st.cleanOldRequests now).burstRequests.length : ℚ)
        < (st.cleanOldRequests now).burstLimit →
      10 < (st.cleanOldRequests now).requestsPerHour
        - ((st.cleanOldRequests now).requests.length : ℚ) →
      (st.getWaitTime now).1 = 0) :=
  ⟨getWaitTime_fst_limited, getWaitTime_crossing, getWaitTime_fst_burst,
   getWaitTime_fst_hourly, getWaitTime_fst_zero⟩

/-- Witness for the C8 theorem: a concrete limited state waits until its
reset, and a concrete state within the hourly threshold waits the backoff-
capped time until its oldest request expires. -/
theorem getWaitTime_spec_witness :
    (limitedState.getWaitTime 40).1 = 100 - 40
    ∧ (hourlyLowState.getWaitTime 10).1
        = min ((1 : ℚ) + 3600000 - 10) hourlyLowState.currentBackoffMs :=
  ⟨getWaitTime_spec.1 limitedState 40 100 rfl rfl (by norm_num) (by norm_num),
   getWaitTime_spec.2.2.2.1 hourlyLowState 10 1 rfl
     (by norm_num [RateLimiter.cleanOldRequests, hourlyLowState])
     (by norm_num [RateLimiter.cleanOldRequests, hourlyLowState])
     (by norm_num [RateLimiter.cleanOldRequests, hourlyLowState, List.min?])⟩

/-- C8 counterexample: on a state whose hard-limit reset time has passed
and whose hourly window is within the threshold (oldest request at 1,
stored backoff 2250), getWaitTime returns 1000 — the minimum against the
freshly floored backoff — not the claimed minimum against the state's
currentDelayMs, which would be min(3599991, 2250) = 2250. -/
theorem getWaitTime_uses_floored_backoff :
    (waitFloorState.getWaitTime 10).1 = 1000
    ∧ min ((1 : ℚ) + 3600000 - 10) waitFloorState.currentBackoffMs = 2250
    ∧ (waitFloorState.getWaitTime 10).1
        ≠ min ((1 : ℚ) + 3600000 - 10) waitFloorState.currentBackoffMs := by
  refine ⟨?_, ?_, ?_⟩ <;>
    norm_num [RateLimiter.getWaitTime, RateLimiter.getWaitTimeBudget,
      RateLimiter.cleanOldRequests, waitFloorState, jsTruthy, List.min?,
      max_def, min_def]

/-- C10: calculateMetricsSummary returns null exactly on an empty metrics
list — every non-empty list yields a summary record, so callers must
handle an absent summary for an empty period. -/
theorem calculateMetricsSummary_none_iff_empty :
    ∀ prMetrics : List PRMetric,
      calculateMetricsSummary prMetrics = none ↔ prMetrics = [] := by
  intro prMetrics
  cases prMetrics with
  | nil => simp [calculateMetricsSummary]
  | cons h t => simp [calculateMetricsSummary]

end TeamHealth
